import Mathlib

/-!
Shallow embedding of the AgentReceipts attestation & verification protocol
(`src/generator.ts`, `src/signer.ts`, `src/verifier.ts`,
`contracts/ReceiptAnchor.sol`).

External I/O collaborators (the chain-data client, the content store and the
signature-recovery primitive of the crypto library) are passed in explicitly
as parameters/environment records, so every operation becomes a pure function
of its inputs, exactly as the source computes on the collaborators' results.
JavaScript exceptions are modelled with `Except`; a JS `Map` is modelled as an
insertion-ordered association list with JS `Map.set` semantics; TypeScript
optional fields (`field?:`) are `Option`, and the JS truthiness tests the code
performs on optional strings (`if (receipt.ipfsCid)`) are modelled by
`isTruthy` (present and non-empty).
-/

/-- The closed network enumeration of `TransactionProof.chain` in `types.ts`. -/
inductive Chain where
  | base
  | baseSepolia
  | ethereum
  | polygon
deriving DecidableEq

/-- The string literal each `Chain` tag stands for in `types.ts`. -/
def Chain.literal : Chain → String
  | .base => "base"
  | .baseSepolia => "base-sepolia"
  | .ethereum => "ethereum"
  | .polygon => "polygon"

/-- The closed `CommerceType` enumeration of `types.ts`. -/
inductive CommerceType where
  | servicePayment
  | productPurchase
  | subscription
  | refund
  | advancePayment
  | milestonePayment
  | bountyPayout
  | teamSplit
  | escrowRelease
  | other
deriving DecidableEq

/-- The string literal each `CommerceType` tag stands for in `types.ts`. -/
def CommerceType.literal : CommerceType → String
  | .servicePayment => "service_payment"
  | .productPurchase => "product_purchase"
  | .subscription => "subscription"
  | .refund => "refund"
  | .advancePayment => "advance_payment"
  | .milestonePayment => "milestone_payment"
  | .bountyPayout => "bounty_payout"
  | .teamSplit => "team_split"
  | .escrowRelease => "escrow_release"
  | .other => "other"

/-- The closed `PaymentStatus` enumeration of `types.ts`. -/
inductive PaymentStatus where
  | paidInFull
  | partialPayment
  | advance
  | refund
  | disputed
  | cancelled
deriving DecidableEq

/-- The string literal each `PaymentStatus` tag stands for in `types.ts`. -/
def PaymentStatus.literal : PaymentStatus → String
  | .paidInFull => "paid_in_full"
  | .partialPayment => "partial_payment"
  | .advance => "advance"
  | .refund => "refund"
  | .disputed => "disputed"
  | .cancelled => "cancelled"

/-- Attestation roles (`types.ts`): buyer, seller, witness, arbiter. -/
inductive Role where
  | buyer
  | seller
  | witness
  | arbiter
deriving DecidableEq

/-- A JSON-serializable value, for the `unknown`-typed `metadata` record of
`CommerceContext` (any value `JSON.stringify` can serialize; JS numbers are
restricted to integers here). Objects keep insertion order, as JS does. -/
inductive Jx where
  | str (s : String)
  | num (n : Int)
  | bool (b : Bool)
  | null
  | arr (xs : List Jx)
  | obj (kvs : List (String × Jx))

/-- Structure `TransactionProof` of `types.ts`; field order is the object-literal order
of `fetchTransactionProof` in `generator.ts`. `from` and `to` are Lean
keywords, so the sender/recipient fields are `from_` and `to_`. -/
structure TransactionProof where
  chain : Chain
  txHash : String
  blockNumber : Nat
  blockHash : String
  timestamp : String
  from_ : String
  to_ : String
  amount : String
  currency : String
  gasUsed : Option String
deriving DecidableEq

/-- Structure `CommerceTerms` of `types.ts`; `customTerms : Record<string, string>` is
an insertion-ordered association list. -/
structure CommerceTerms where
  period : Option String
  sla : Option String
  deliverables : Option (List String)
  refundConditions : Option String
  customTerms : Option (List (String × String))
deriving DecidableEq

/-- Structure `CommerceContext` of `types.ts`; `metadata : Record<string, unknown>` is
an insertion-ordered association list of JSON-serializable values. -/
structure CommerceContext where
  type : CommerceType
  description : String
  orderReference : Option String
  invoiceId : Option String
  terms : Option CommerceTerms
  status : PaymentStatus
  metadata : Option (List (String × Jx))

/-- Structure `Attestation` of `types.ts`. -/
structure Attestation where
  agent : String
  agentId : Option String
  signature : String
  timestamp : String
  role : Role
deriving DecidableEq

/-- Structure `AgentReceipt` of `types.ts`: the aggregate with the three optional
anchoring fields. -/
structure AgentReceipt where
  receiptId : String
  version : String
  createdAt : String
  transaction : TransactionProof
  commerce : CommerceContext
  attestations : List Attestation
  ipfsCid : Option String := none
  onChainAnchor : Option String := none
  anchorTxHash : Option String := none

/-- JS truthiness of an optional string field: present and non-empty
(`undefined` and `""` are falsy). -/
def isTruthy : Option String → Bool
  | none => false
  | some s => s != ""

/-! ## JSON serialization (`JSON.stringify`, no spacing argument) -/

/-- Lower-case hex digit. -/
def hexDigit (n : Nat) : Char :=
  if n < 10 then Char.ofNat (48 + n) else Char.ofNat (97 + (n - 10))

/-- Four-digit hex rendering for `\u00XX` escapes. -/
def hex4 (n : Nat) : String :=
  String.mk [hexDigit (n / 4096 % 16), hexDigit (n / 256 % 16),
             hexDigit (n / 16 % 16), hexDigit (n % 16)]

/-- The `JSON.stringify` escaping of one character inside a string literal. -/
def jsonEscapeChar (c : Char) : String :=
  if c = '"' then "\\\""
  else if c = '\\' then "\\\\"
  else if c = '\x08' then "\\b"
  else if c = '\t' then "\\t"
  else if c = '\n' then "\\n"
  else if c = '\x0c' then "\\f"
  else if c = '\r' then "\\r"
  else if c.toNat < 32 then "\\u" ++ hex4 c.toNat
  else String.singleton c

/-- The `JSON.stringify` form of a string: quoted with escapes. -/
def jsonEscape (s : String) : String :=
  "\"" ++ String.join (s.toList.map jsonEscapeChar) ++ "\""

mutual

/-- The `JSON.stringify` form of a JSON value (object keys in JS insertion order). -/
def Jx.ser : Jx → String
  | .str s => jsonEscape s
  | .num n => toString n
  | .bool b => if b then "true" else "false"
  | .null => "null"
  | .arr xs => "[" ++ Jx.serList xs ++ "]"
  | .obj kvs => "\x7b" ++ Jx.serObj kvs ++ "\x7d"

/-- Comma-separated serialization of a JSON array's elements. -/
def Jx.serList : List Jx → String
  | [] => ""
  | [x] => Jx.ser x
  | x :: y :: xs => Jx.ser x ++ "," ++ Jx.serList (y :: xs)

/-- Comma-separated serialization of a JSON object's entries. -/
def Jx.serObj : List (String × Jx) → String
  | [] => ""
  | [(k, v)] => jsonEscape k ++ ":" ++ Jx.ser v
  | (k, v) :: y :: xs => jsonEscape k ++ ":" ++ Jx.ser v ++ "," ++ Jx.serObj (y :: xs)

end

/-- Assemble a `JSON.stringify` object from optional (key, serialized value)
entries: properties whose value is `undefined` are omitted entirely. -/
def jsonObjOf (fields : List (Option (String × String))) : String :=
  "\x7b" ++ String.intercalate ","
    ((fields.filterMap id).map (fun kv => jsonEscape kv.1 ++ ":" ++ kv.2)) ++ "\x7d"

/-- The `JSON.stringify` form of a string array. -/
def jsonOfStringList (xs : List String) : String :=
  "[" ++ String.intercalate "," (xs.map jsonEscape) ++ "]"

/-- The `JSON.stringify` form of a `TransactionProof`, keys in the object-literal order
of `fetchTransactionProof` (`generator.ts`); an `undefined` `gasUsed` is
omitted. -/
def transactionJson (t : TransactionProof) : String :=
  jsonObjOf
    [ some ("chain", jsonEscape t.chain.literal),
      some ("txHash", jsonEscape t.txHash),
      some ("blockNumber", toString t.blockNumber),
      some ("blockHash", jsonEscape t.blockHash),
      some ("timestamp", jsonEscape t.timestamp),
      some ("from", jsonEscape t.from_),
      some ("to", jsonEscape t.to_),
      some ("amount", jsonEscape t.amount),
      some ("currency", jsonEscape t.currency),
      t.gasUsed.map (fun g => ("gasUsed", jsonEscape g)) ]

/-- The `JSON.stringify` form of `CommerceTerms`, keys in the declaration order of
`types.ts`; `undefined` fields omitted. -/
def termsJson (t : CommerceTerms) : String :=
  jsonObjOf
    [ t.period.map (fun v => ("period", jsonEscape v)),
      t.sla.map (fun v => ("sla", jsonEscape v)),
      t.deliverables.map (fun v => ("deliverables", jsonOfStringList v)),
      t.refundConditions.map (fun v => ("refundConditions", jsonEscape v)),
      t.customTerms.map (fun v =>
        ("customTerms", jsonObjOf (v.map (fun kv => some (kv.1, jsonEscape kv.2))))) ]

/-- The `JSON.stringify` form of a `CommerceContext`, keys in the declaration order of
`types.ts`; `undefined` fields omitted. -/
def commerceJson (c : CommerceContext) : String :=
  jsonObjOf
    [ some ("type", jsonEscape c.type.literal),
      some ("description", jsonEscape c.description),
      c.orderReference.map (fun v => ("orderReference", jsonEscape v)),
      c.invoiceId.map (fun v => ("invoiceId", jsonEscape v)),
      c.terms.map (fun v => ("terms", termsJson v)),
      some ("status", jsonEscape c.status.literal),
      c.metadata.map (fun v => ("metadata", Jx.ser (Jx.obj v))) ]

/-! ## Generator (`generator.ts`) -/

/-- The deterministic JSON normalization inside `computeReceiptHash`
(`generator.ts`): `JSON.stringify` of the object literal with exactly the
four keys receiptId, version, transaction, commerce, in that order. -/
def normalizedReceiptJson (receipt : AgentReceipt) : String :=
  jsonObjOf
    [ some ("receiptId", jsonEscape receipt.receiptId),
      some ("version", jsonEscape receipt.version),
      some ("transaction", transactionJson receipt.transaction),
      some ("commerce", commerceJson receipt.commerce) ]

/-- Function `computeReceiptHash` (`generator.ts`): `keccak256(toBytes(normalized))`.
The digest primitive (keccak-256 composed with UTF-8 `toBytes`) is supplied by
the external crypto library and is passed as the `keccak256` parameter. -/
def computeReceiptHash (keccak256 : String → String) (receipt : AgentReceipt) : String :=
  keccak256 (normalizedReceiptJson receipt)

/-- The EIP-712 domain constant `RECEIPT_DOMAIN` of `types.ts`. -/
structure ReceiptDomain where
  name : String
  version : String
  chainId : Nat
deriving DecidableEq

/-- The `RECEIPT_DOMAIN` value: AgentReceipts v1 on chain 84532 (Base Sepolia). -/
def RECEIPT_DOMAIN : ReceiptDomain :=
  { name := "AgentReceipts", version := "1", chainId := 84532 }

/-- The message record built by `getReceiptSigningMessage` (`generator.ts`):
the seven string fields of the EIP-712 `Receipt` type. -/
structure SigningMessage where
  receiptId : String
  txHash : String
  amount : String
  commerceType : String
  description : String
  status : String
  timestamp : String
deriving DecidableEq

/-- Function `getReceiptSigningMessage` (`generator.ts`): the EIP-712 message content
(the domain and type table are the constants above and are carried implicitly
by the signature primitive). -/
def getReceiptSigningMessage (receipt : AgentReceipt) : SigningMessage :=
  { receiptId := receipt.receiptId,
    txHash := receipt.transaction.txHash,
    amount := receipt.transaction.amount,
    commerceType := receipt.commerce.type.literal,
    description := receipt.commerce.description,
    status := receipt.commerce.status.literal,
    timestamp := receipt.createdAt }

/-- Structure `CreateReceiptInput` of `types.ts`. The TS interface declares
`buyerAgent`/`sellerAgent` as `string`, but `createReceipt` guards both with a
JS truthiness test, so absent (`undefined`) and empty values are possible and
modelled by `Option String`. -/
structure CreateReceiptInput where
  txHash : String
  chain : Option Chain
  commerce : CommerceContext
  buyerAgent : Option String
  sellerAgent : Option String

/-- The collaborator results `createReceipt` consumes: the
`TransactionProof` fetched from the chain by `fetchTransactionProof`, the
fresh UUID and the current ISO timestamp. -/
structure GeneratorEnv where
  transactionProof : TransactionProof
  newUuid : String
  nowIso : String

/-- Function `createReceipt` (`generator.ts`): fetches the on-chain proof, overrides
`from`/`to` with `buyerAgent`/`sellerAgent` when those are truthy, and builds
the fresh receipt with no attestations and no anchoring fields. -/
def createReceipt (env : GeneratorEnv) (input : CreateReceiptInput) : AgentReceipt :=
  let transactionProof := env.transactionProof
  let tp1 :=
    if isTruthy input.buyerAgent then
      { transactionProof with from_ := input.buyerAgent.getD "" }
    else transactionProof
  let tp2 :=
    if isTruthy input.sellerAgent then
      { tp1 with to_ := input.sellerAgent.getD "" }
    else tp1
  { receiptId := env.newUuid,
    version := "1.0",
    createdAt := env.nowIso,
    transaction := tp2,
    commerce := input.commerce,
    attestations := [] }

/-! ## Signer (`signer.ts`) -/

/-- JS `String.prototype.toLowerCase` as used for the case-insensitive address
comparison (hex addresses are ASCII): lower-case every character. -/
def lowerAscii (s : String) : String := String.mk (s.toList.map Char.toLower)

/-- The error `addAttestation` throws on a duplicate signer. -/
inductive SignerError where
  | duplicateAttestation (agent : String)
deriving DecidableEq

/-- Function `addAttestation` (`signer.ts`): rejects a second attestation from the same
signer address (case-insensitive `find` over the current list), otherwise
returns a new receipt value with the attestation appended
(`{ ...receipt, attestations: [...receipt.attestations, attestation] }`). -/
def addAttestation (receipt : AgentReceipt) (attestation : Attestation) :
    Except SignerError AgentReceipt :=
  match receipt.attestations.find?
      (fun a => lowerAscii a.agent == lowerAscii attestation.agent) with
  | some _ => .error (.duplicateAttestation attestation.agent)
  | none => .ok { receipt with attestations := receipt.attestations ++ [attestation] }

/-- The signature-recovery primitive `verifyTypedData` of the crypto library:
given the claimed signer address, the domain-separated message and the
signature bytes, it returns a boolean — or throws on malformed input,
modelled by `Except.error`. -/
abbrev VerifyPrimitive := String → SigningMessage → String → Except String Bool

/-- Function `verifyAttestation` (`signer.ts`): recomputes the signing message from the
receipt and asks the primitive; the `try/catch` converts any thrown error
into the return value `false`, so the caller always gets a boolean. -/
def verifyAttestation (prim : VerifyPrimitive) (receipt : AgentReceipt)
    (attestation : Attestation) : Bool :=
  match prim attestation.agent (getReceiptSigningMessage receipt) attestation.signature with
  | .ok isValid => isValid
  | .error _ => false

/-- JS `Map.set` on an insertion-ordered association list: overwrite in place
when the key is present (keeping its original position), else append. -/
def mapSet (m : List (String × Bool)) (k : String) (v : Bool) : List (String × Bool) :=
  if m.any (fun p => p.1 == k) then
    m.map (fun p => if p.1 == k then (k, v) else p)
  else m ++ [(k, v)]

/-- The result of `verifyAllAttestations`: aggregate validity plus the
per-signer map (as an insertion-ordered association list). -/
structure VerifyAllResult where
  valid : Bool
  results : List (String × Bool)
deriving DecidableEq

/-- Function `verifyAllAttestations` (`signer.ts`): verify every attestation
independently, record the outcome per agent in a `Map`, and aggregate by
conjunction over the map's values (`every(v => v)`). -/
def verifyAllAttestations (prim : VerifyPrimitive) (receipt : AgentReceipt) :
    VerifyAllResult :=
  let results := receipt.attestations.foldl
    (fun m a => mapSet m a.agent (verifyAttestation prim receipt a)) []
  { valid := results.all (fun p => p.2), results := results }

/-- Function `hasRequiredAttestations` (`signer.ts`): at least one buyer-role and one
seller-role attestation. -/
def hasRequiredAttestations (receipt : AgentReceipt) : Bool :=
  (receipt.attestations.any (fun a => a.role == Role.buyer)) &&
  (receipt.attestations.any (fun a => a.role == Role.seller))

/-! ## Verifier (`verifier.ts`) -/

/-- The outcome of the private `verifyTransaction` helper (`verifier.ts`):
entirely determined by the chain collaborator's answers, so supplied by the
environment. -/
structure TxVerification where
  txExists : Bool
  matches_ : Bool
  errors : List String
deriving DecidableEq

/-- Structure `VerifyReceiptInput` of `types.ts`; `checkOnChain` defaults to `true`. -/
structure VerifyReceiptInput where
  receipt : AgentReceipt
  checkOnChain : Bool := true

/-- The `checks` record of `VerificationResult` (`types.ts`): the two
optional checks are `undefined` (`none`) when not attempted. -/
structure Checks where
  transactionExists : Bool
  transactionMatches : Bool
  signaturesValid : Bool
  anchorMatches : Option Bool
  ipfsAvailable : Option Bool
deriving DecidableEq

/-- Structure `VerificationResult` of `types.ts`. -/
structure VerificationResult where
  valid : Bool
  checks : Checks
  errors : List String
  confidence : Nat
deriving DecidableEq

/-- The collaborator outcomes `verifyReceipt` consumes: the transaction-check
result (chain client), the signature primitive, and the `exists` outcome that
`verifyOnChainAnchor` (`storage.ts`) would report for this receipt. -/
structure VerifierEnv where
  txVerification : TxVerification
  prim : VerifyPrimitive
  anchorExists : Bool

/-- The confidence computation of `verifyReceipt` (`verifier.ts`), one
summand per `if` statement: existence 25, match 25, signatures 30, 10 per
optional check that was attempted and came back true, plus a flat 5-point
partial credit per optional check that was not attempted. -/
def confidenceOf (c : Checks) : Nat :=
  (if c.transactionExists then 25 else 0) +
  (if c.transactionMatches then 25 else 0) +
  (if c.signaturesValid then 30 else 0) +
  (if c.anchorMatches = some true then 10 else 0) +
  (if c.ipfsAvailable = some true then 10 else 0) +
  (if c.anchorMatches = none then 5 else 0) +
  (if c.ipfsAvailable = none then 5 else 0)

/-- Function `verifyReceipt` (`verifier.ts`): runs the four check steps on the
collaborator outcomes, accumulates the error strings in source order, then
computes the confidence score and the overall validity conjunction. -/
def verifyReceipt (env : VerifierEnv) (input : VerifyReceiptInput) :
    VerificationResult :=
  let receipt := input.receipt
  -- 1. verify transaction on chain
  let txv := env.txVerification
  let errors1 := txv.errors
  -- 2. verify attestation signatures
  let sigStep : Bool × List String :=
    if receipt.attestations.isEmpty then
      (false, ["No attestations present"])
    else
      let sigVerification := verifyAllAttestations env.prim receipt
      let sigErrors :=
        if sigVerification.valid then []
        else sigVerification.results.filterMap
          (fun p => if p.2 then none else some ("Invalid signature from " ++ p.1))
      let reqErrors :=
        if hasRequiredAttestations receipt then []
        else ["Missing required attestations (need both buyer and seller)"]
      (sigVerification.valid, sigErrors ++ reqErrors)
  let errors2 := errors1 ++ sigStep.2
  -- 3. verify on-chain anchor (if present and requested)
  let anchorStep : Option Bool × List String :=
    if input.checkOnChain && isTruthy receipt.anchorTxHash then
      (some env.anchorExists,
       if env.anchorExists then [] else ["On-chain anchor not found or does not match"])
    else (none, [])
  let errors3 := errors2 ++ anchorStep.2
  -- 4. check IPFS availability (if CID present); assumed available for demo
  let ipfsAvailable : Option Bool :=
    if isTruthy receipt.ipfsCid then some true else none
  let checks : Checks :=
    { transactionExists := txv.txExists,
      transactionMatches := txv.matches_,
      signaturesValid := sigStep.1,
      anchorMatches := anchorStep.1,
      ipfsAvailable := ipfsAvailable }
  let confidence := confidenceOf checks
  let valid := checks.transactionExists && checks.transactionMatches &&
    checks.signaturesValid
  { valid := valid, checks := checks, errors := errors3, confidence := confidence }

/-! ## Anchor ledger (`contracts/ReceiptAnchor.sol`) -/

namespace ReceiptAnchor

/-- The contract's `Receipt` struct (an anchor record). `bytes32` values and
addresses are modelled as `Nat`, with `0` the Solidity zero value. -/
structure Record where
  receiptHash : Nat
  ipfsCid : String
  originalTxHash : Nat
  anchoredBy : Nat
  anchoredAt : Nat
deriving DecidableEq

/-- The zero-initialized record a Solidity mapping returns for absent keys. -/
def Record.zero : Record :=
  { receiptHash := 0, ipfsCid := "", originalTxHash := 0,
    anchoredBy := 0, anchoredAt := 0 }

/-- Contract storage: the `receipts` mapping (total, zero-defaulted) and the
append-only `receiptIds` array. -/
structure State where
  receipts : Nat → Record
  receiptIds : List Nat

/-- Fresh contract storage. -/
def State.init : State := { receipts := fun _ => Record.zero, receiptIds := [] }

/-- The `require` failures of `anchorReceipt`, in source order. -/
inductive AnchorError where
  | alreadyAnchored
  | invalidReceiptHash
  | invalidIpfsCid
deriving DecidableEq

/-- Contract function `anchorReceipt`: write-once guarded by the non-zero `anchoredAt`
timestamp; a failed `require` reverts, leaving storage unchanged
(`Except.error`). `msgSender` and `blockTimestamp` are the EVM environment of
the call. -/
def anchorReceipt (s : State) (msgSender blockTimestamp : Nat)
    (receiptId receiptHash : Nat) (ipfsCid : String) (originalTxHash : Nat) :
    Except AnchorError State :=
  if (s.receipts receiptId).anchoredAt ≠ 0 then .error .alreadyAnchored
  else if receiptHash = 0 then .error .invalidReceiptHash
  else if ipfsCid = "" then .error .invalidIpfsCid
  else .ok
    { receipts := fun rid =>
        if rid = receiptId then
          { receiptHash := receiptHash, ipfsCid := ipfsCid,
            originalTxHash := originalTxHash, anchoredBy := msgSender,
            anchoredAt := blockTimestamp }
        else s.receipts rid,
      receiptIds := s.receiptIds ++ [receiptId] }

/-- Contract function `getReceipt`: a plain mapping read — the zero record when absent. -/
def getReceipt (s : State) (receiptId : Nat) : Record := s.receipts receiptId

/-- The loop condition of `getReceiptsByAgent`:
`receipts[receiptIds[i]].anchoredBy == agent`. -/
def matchesAgent (s : State) (agent rid : Nat) : Bool :=
  (s.receipts rid).anchoredBy == agent

/-- Contract function `getReceiptsByAgent`: the two-pass scan — count the matches, then fill a
fixed-size memory array (modelled by `List.replicate` and in-place
`List.set`) in `receiptIds` order. -/
def getReceiptsByAgent (s : State) (agent : Nat) : List Nat :=
  let count := s.receiptIds.foldl
    (fun c rid => if matchesAgent s agent rid then c + 1 else c) 0
  let result := List.replicate count 0
  let filled := s.receiptIds.foldl
    (fun acc rid =>
      if matchesAgent s agent rid then (acc.1.set acc.2 rid, acc.2 + 1) else acc)
    (result, 0)
  filled.1

end ReceiptAnchor

/-! ## Concrete fixtures for witnesses -/

/-- A concrete commerce context. -/
def demoCommerce : CommerceContext :=
  { type := .servicePayment, description := "API access",
    orderReference := none, invoiceId := none, terms := none,
    status := .paidInFull, metadata := none }

/-- A concrete fetched transaction proof. -/
def demoProof : TransactionProof :=
  { chain := .baseSepolia, txHash := "0xT1", blockNumber := 7,
    blockHash := "0xB1", timestamp := "2026-01-01T00:00:00.000Z",
    from_ := "0xBuyer", to_ := "0xSeller", amount := "100.00",
    currency := "USDC", gasUsed := some "21000" }

/-- A concrete attestation with the given agent, signature and role. -/
def demoAtt (agent sig : String) (role : Role) : Attestation :=
  { agent := agent, agentId := none, signature := sig,
    timestamp := "2026-01-01T00:00:01.000Z", role := role }

/-- A concrete receipt with no attestations. -/
def demoReceipt : AgentReceipt :=
  { receiptId := "rid-1", version := "1.0",
    createdAt := "2026-01-01T00:00:00.000Z",
    transaction := demoProof, commerce := demoCommerce, attestations := [] }

/-- The receipt after buyer and seller attestations. -/
def demoSignedReceipt : AgentReceipt :=
  { demoReceipt with
    attestations := [demoAtt "0xA" "0xSigA" .buyer, demoAtt "0xB" "0xSigB" .seller] }

/-- A recovery primitive that accepts every signature. -/
def demoPrimOk : VerifyPrimitive := fun _ _ _ => .ok true

/-- A recovery primitive that throws on every signature. -/
def demoPrimThrow : VerifyPrimitive := fun _ _ _ => .error "malformed signature"

/-- A verifier environment in which every collaborator check passes. -/
def demoEnvOk : VerifierEnv :=
  { txVerification := { txExists := true, matches_ := true, errors := [] },
    prim := demoPrimOk, anchorExists := true }

/-- Apply an `anchorReceipt` call, keeping the old storage if it reverts. -/
def applyAnchor (s : ReceiptAnchor.State) (sender ts rid h : Nat)
    (cid : String) (tx : Nat) : ReceiptAnchor.State :=
  match ReceiptAnchor.anchorReceipt s sender ts rid h cid tx with
  | .ok s2 => s2
  | .error _ => s

/-- Overwrite just the informational fields of a receipt: the content-store
locator and the two on-chain anchoring fields. -/
def withAnchorFields (r : AgentReceipt) (cid oca atx : Option String) : AgentReceipt :=
  { r with ipfsCid := cid, onChainAnchor := oca, anchorTxHash := atx }

/-- A concrete generator environment. -/
def demoGenEnv : GeneratorEnv :=
  { transactionProof := demoProof, newUuid := "uuid-1",
    nowIso := "2026-01-02T00:00:00.000Z" }

/-- A concrete `createReceipt` input supplying a buyer override but no
seller override. -/
def demoCreateInput : CreateReceiptInput :=
  { txHash := "0xT1", chain := some .baseSepolia, commerce := demoCommerce,
    buyerAgent := some "0xBuyerOverride", sellerAgent := none }

/-- A ledger with five anchors: ids 1, 2, 4 by agent 7 and ids 3, 5 by
agent 9, in that order. -/
def demoLedger : ReceiptAnchor.State :=
  applyAnchor (applyAnchor (applyAnchor (applyAnchor (applyAnchor
    ReceiptAnchor.State.init 7 10 1 11 "c1" 21) 7 11 2 12 "c2" 22)
    9 12 3 13 "c3" 23) 7 13 4 14 "c4" 24) 9 14 5 15 "c5" 25

/-! ## Helper lemmas -/

/-- Case analysis giving the confidence bounds for an arbitrary checks
record. -/
theorem confidenceOf_bounds (c : Checks) :
    confidenceOf c ≤ 100 ∧
      ((c.transactionExists && c.transactionMatches && c.signaturesValid) = true →
        80 ≤ confidenceOf c) := by
  obtain ⟨te, tm, sv, am, ip⟩ := c
  cases te <;> cases tm <;> cases sv <;> rcases am with _ | am <;> rcases ip with _ | ip
  all_goals (try cases am)
  all_goals (try cases ip)
  all_goals decide

/-- A checks record whose content check came back true collects its 10
points, so the total is at least 10. -/
theorem confidenceOf_ipfs_ten (c : Checks) (h : c.ipfsAvailable = some true) :
    10 ≤ confidenceOf c := by
  obtain ⟨te, tm, sv, am, ip⟩ := c
  replace h : ip = some true := h
  subst h
  cases te <;> cases tm <;> cases sv <;> rcases am with _ | am
  all_goals (try cases am)
  all_goals decide

/-- The counting pass of `getReceiptsByAgent` computes the filter length. -/
theorem foldl_count_eq (p : Nat → Bool) :
    ∀ (l : List Nat) (c : Nat),
      l.foldl (fun c rid => if p rid then c + 1 else c) c = c + (l.filter p).length := by
  intro l
  induction l with
  | nil => intro c; simp
  | cons x xs ih =>
      intro c
      rw [List.foldl_cons]
      by_cases hx : p x = true
      · rw [if_pos hx, ih, List.filter_cons, if_pos hx]
        simp; omega
      · rw [if_neg hx, ih, List.filter_cons, if_neg hx]

/-- Writing at the cursor and taking one element more appends the write. -/
theorem take_succ_set (x : Nat) :
    ∀ (l : List Nat) (i : Nat), i < l.length →
      (l.set i x).take (i + 1) = l.take i ++ [x] := by
  intro l
  induction l with
  | nil => intro i h; simp at h
  | cons a as ih =>
      intro i h
      cases i with
      | zero => simp
      | succ i =>
          have h2 : i < as.length := by simpa using h
          show (a :: as.set i x).take (i + 1 + 1) = (a :: as).take (i + 1) ++ [x]
          rw [List.take_succ_cons, List.take_succ_cons, ih i h2, List.cons_append]

/-- The filling pass of `getReceiptsByAgent`: starting at cursor `i` in a
buffer sized for exactly the remaining matches, the loop writes out the
filtered ids after position `i`. -/
theorem foldl_fill_eq (p : Nat → Bool) :
    ∀ (l res : List Nat) (i : Nat),
      res.length = i + (l.filter p).length →
      (l.foldl
        (fun acc rid => if p rid then (acc.1.set acc.2 rid, acc.2 + 1) else acc)
        (res, i)).1 = res.take i ++ l.filter p := by
  intro l
  induction l with
  | nil =>
      intro res i h
      simp at h
      simp [List.take_of_length_le (Nat.le_of_eq h)]
  | cons x xs ih =>
      intro res i h
      rw [List.foldl_cons]
      by_cases hx : p x = true
      · rw [if_pos hx]
        rw [List.filter_cons, if_pos hx, List.length_cons] at h
        have hlen : (res.set i x).length = (i + 1) + (xs.filter p).length := by
          simp [List.length_set]; omega
        rw [ih (res.set i x) (i + 1) hlen]
        have hi : i < res.length := by omega
        rw [take_succ_set x res i hi, List.filter_cons, if_pos hx]
        simp
      · rw [if_neg hx]
        rw [List.filter_cons, if_neg hx] at h
        rw [ih res i h, List.filter_cons, if_neg hx]

/-! ## Claim theorems -/

/-- C1: `computeReceiptHash` is deterministic (a pure function of the
receipt, so repeated evaluation gives the same digest), and any two receipts
that agree on the four normalized fields receiptId, version, transaction and
commerce produce the same digest — the normalization never reads the
attestations list or the anchoring fields ipfsCid, onChainAnchor,
anchorTxHash. This holds for every digest primitive `keccak256`. -/
theorem computeReceiptHash_core_fields (keccak256 : String → String)
    (r1 r2 : AgentReceipt)
    (hid : r1.receiptId = r2.receiptId) (hver : r1.version = r2.version)
    (htx : r1.transaction = r2.transaction) (hcom : r1.commerce = r2.commerce) :
    computeReceiptHash keccak256 r1 = computeReceiptHash keccak256 r1 ∧
    computeReceiptHash keccak256 r1 = computeReceiptHash keccak256 r2 := by
  refine ⟨rfl, ?_⟩
  unfold computeReceiptHash normalizedReceiptJson
  rw [hid, hver, htx, hcom]

/-- C1 witness: adding an attestation and all three anchoring fields to a
concrete receipt leaves its hash unchanged. -/
theorem computeReceiptHash_core_fields_witness :
    computeReceiptHash id demoReceipt =
      computeReceiptHash id
        { demoReceipt with
          attestations := [demoAtt "0xA" "0xSigA" .buyer],
          ipfsCid := some "bafyreig00", onChainAnchor := some "0xHash",
          anchorTxHash := some "0xAnchorTx" } :=
  (computeReceiptHash_core_fields id demoReceipt
    { demoReceipt with
      attestations := [demoAtt "0xA" "0xSigA" .buyer],
      ipfsCid := some "bafyreig00", onChainAnchor := some "0xHash",
      anchorTxHash := some "0xAnchorTx" } rfl rfl rfl rfl).2

/-- C2: whatever the collaborator outcomes, the confidence `verifyReceipt`
returns lies in [0, 100], and a `valid = true` verdict forces confidence of
at least 80 (25 + 25 + 30 from the three mandatory checks). -/
theorem verifyReceipt_confidence_bounds (env : VerifierEnv)
    (input : VerifyReceiptInput) :
    0 ≤ (verifyReceipt env input).confidence ∧
    (verifyReceipt env input).confidence ≤ 100 ∧
    ((verifyReceipt env input).valid = true →
      80 ≤ (verifyReceipt env input).confidence) := by
  have h := confidenceOf_bounds (verifyReceipt env input).checks
  have hc : (verifyReceipt env input).confidence =
      confidenceOf (verifyReceipt env input).checks := rfl
  have hv : (verifyReceipt env input).valid =
      ((verifyReceipt env input).checks.transactionExists &&
       (verifyReceipt env input).checks.transactionMatches &&
       (verifyReceipt env input).checks.signaturesValid) := rfl
  refine ⟨Nat.zero_le _, by rw [hc]; exact h.1, ?_⟩
  intro hvalid
  rw [hc]
  exact h.2 (by rw [← hv]; exact hvalid)

/-- C2 witness: on a fully passing environment the verdict is valid and the
bound applies, giving confidence at least 80. -/
theorem verifyReceipt_confidence_bounds_witness :
    (verifyReceipt demoEnvOk { receipt := demoSignedReceipt }).valid = true ∧
    80 ≤ (verifyReceipt demoEnvOk { receipt := demoSignedReceipt }).confidence :=
  ⟨by decide,
   (verifyReceipt_confidence_bounds demoEnvOk { receipt := demoSignedReceipt }).2.2
     (by decide)⟩

/-- C3: the verdict is exactly the conjunction of the three mandatory check
outcomes, and the optional evidence — the anchor collaborator's outcome, the
checkOnChain flag and the receipt's ipfsCid / onChainAnchor / anchorTxHash
fields, i.e. everything that determines anchorMatches and ipfsAvailable —
never changes `valid`. -/
theorem verifyReceipt_valid_conj (txv : TxVerification) (prim : VerifyPrimitive)
    (ae1 ae2 : Bool) (r : AgentReceipt) (coc1 coc2 : Bool)
    (cid1 cid2 oca1 oca2 atx1 atx2 : Option String) :
    ((verifyReceipt ⟨txv, prim, ae1⟩ ⟨withAnchorFields r cid1 oca1 atx1, coc1⟩).valid =
      ((verifyReceipt ⟨txv, prim, ae1⟩
          ⟨withAnchorFields r cid1 oca1 atx1, coc1⟩).checks.transactionExists &&
       (verifyReceipt ⟨txv, prim, ae1⟩
          ⟨withAnchorFields r cid1 oca1 atx1, coc1⟩).checks.transactionMatches &&
       (verifyReceipt ⟨txv, prim, ae1⟩
          ⟨withAnchorFields r cid1 oca1 atx1, coc1⟩).checks.signaturesValid)) ∧
    (verifyReceipt ⟨txv, prim, ae1⟩ ⟨withAnchorFields r cid1 oca1 atx1, coc1⟩).valid =
      (verifyReceipt ⟨txv, prim, ae2⟩ ⟨withAnchorFields r cid2 oca2 atx2, coc2⟩).valid :=
  ⟨rfl, rfl⟩

/-- C4: the ledger is write-once per receiptId: a first `anchorReceipt` on a
not-yet-anchored id with non-zero hash and non-empty locator succeeds and
stores the record; every later `anchorReceipt` for the same id (any hash,
locator, writer or timestamp) reverts with AlreadyAnchored, and since a
revert leaves storage untouched, `getReceipt` afterwards still returns the
original record. Block timestamps are positive, which is what makes the
stored `anchoredAt` a valid existence marker. -/
theorem anchorReceipt_write_once (s : ReceiptAnchor.State)
    (sender ts receiptId receiptHash originalTxHash : Nat) (ipfsCid : String)
    (hfree : (s.receipts receiptId).anchoredAt = 0)
    (hhash : receiptHash ≠ 0) (hcid : ipfsCid ≠ "") (hts : 0 < ts) :
    ∃ s1, ReceiptAnchor.anchorReceipt s sender ts receiptId receiptHash
        ipfsCid originalTxHash = .ok s1 ∧
      (∀ sender2 ts2 h2 cid2 tx2,
        ReceiptAnchor.anchorReceipt s1 sender2 ts2 receiptId h2 cid2 tx2 =
          .error .alreadyAnchored) ∧
      ReceiptAnchor.getReceipt s1 receiptId =
        { receiptHash := receiptHash, ipfsCid := ipfsCid,
          originalTxHash := originalTxHash, anchoredBy := sender,
          anchoredAt := ts } := by
  have hstep : ReceiptAnchor.anchorReceipt s sender ts receiptId receiptHash
      ipfsCid originalTxHash = .ok
      { receipts := fun rid =>
          if rid = receiptId then
            { receiptHash := receiptHash, ipfsCid := ipfsCid,
              originalTxHash := originalTxHash, anchoredBy := sender,
              anchoredAt := ts }
          else s.receipts rid,
        receiptIds := s.receiptIds ++ [receiptId] } := by
    unfold ReceiptAnchor.anchorReceipt
    rw [if_neg (by simp [hfree]), if_neg hhash, if_neg hcid]
  refine ⟨_, hstep, ?_, ?_⟩
  · intro sender2 ts2 h2 cid2 tx2
    unfold ReceiptAnchor.anchorReceipt
    rw [if_pos]
    simp
    omega
  · unfold ReceiptAnchor.getReceipt
    simp

/-- C4 witness: a concrete first anchor on fresh storage succeeds, every
re-anchor of the same id fails, and the record reads back unchanged. -/
theorem anchorReceipt_write_once_witness :
    ∃ s1, ReceiptAnchor.anchorReceipt ReceiptAnchor.State.init 5 1 1 2 "loc1" 3 =
        .ok s1 ∧
      (∀ sender2 ts2 h2 cid2 tx2,
        ReceiptAnchor.anchorReceipt s1 sender2 ts2 1 h2 cid2 tx2 =
          .error .alreadyAnchored) ∧
      ReceiptAnchor.getReceipt s1 1 =
        { receiptHash := 2, ipfsCid := "loc1", originalTxHash := 3,
          anchoredBy := 5, anchoredAt := 1 } :=
  anchorReceipt_write_once ReceiptAnchor.State.init 5 1 1 2 3 "loc1"
    rfl (by decide) (by decide) (by decide)

/-- C5: `addAttestation` rejects a second attestation whose signer matches an
existing one under case-insensitive comparison, failing with
DuplicateAttestation (no receipt is produced, so the original list is
untouched); otherwise it returns a fresh receipt value with the attestation
appended at the end and every other field preserved — the input receipt is
never mutated, the append being a pure transformation. -/
theorem addAttestation_spec (r : AgentReceipt) (a : Attestation) :
    ((∃ b ∈ r.attestations, lowerAscii b.agent = lowerAscii a.agent) →
      addAttestation r a = .error (.duplicateAttestation a.agent)) ∧
    ((∀ b ∈ r.attestations, lowerAscii b.agent ≠ lowerAscii a.agent) →
      addAttestation r a = .ok { r with attestations := r.attestations ++ [a] }) := by
  constructor
  · intro hdup
    obtain ⟨b, hb, heq⟩ := hdup
    have hsome : (r.attestations.find?
        (fun x => lowerAscii x.agent == lowerAscii a.agent)).isSome := by
      rw [List.find?_isSome]
      exact ⟨b, hb, by simpa using heq⟩
    rcases hfind : r.attestations.find?
        (fun x => lowerAscii x.agent == lowerAscii a.agent) with _ | b2
    · rw [hfind] at hsome; simp at hsome
    · simp [addAttestation, hfind]
  · intro hnone
    have hfind : r.attestations.find?
        (fun x => lowerAscii x.agent == lowerAscii a.agent) = none := by
      rw [List.find?_eq_none]
      intro x hx
      simpa using hnone x hx
    simp [addAttestation, hfind]

/-- C5 witness: on a receipt attested by 0xAB, an attestation by 0xab is a
case-insensitive duplicate and is rejected, while one by 0xCD is appended. -/
theorem addAttestation_spec_witness :
    addAttestation { demoReceipt with attestations := [demoAtt "0xAB" "0xS1" .buyer] }
        (demoAtt "0xab" "0xS2" .seller) =
      .error (.duplicateAttestation "0xab") ∧
    addAttestation { demoReceipt with attestations := [demoAtt "0xAB" "0xS1" .buyer] }
        (demoAtt "0xCD" "0xS3" .seller) =
      .ok { demoReceipt with
            attestations := [demoAtt "0xAB" "0xS1" .buyer, demoAtt "0xCD" "0xS3" .seller] } :=
  ⟨(addAttestation_spec _ _).1 ⟨demoAtt "0xAB" "0xS1" .buyer, by decide, by decide⟩,
   (addAttestation_spec _ _).2 (by decide)⟩

/-- C6: `verifyAttestation` always hands its caller a boolean and never
re-raises — the try/catch absorbs a throwing recovery primitive, and a
primitive failure yields `false`, while a successful recovery verdict passes
through unchanged. -/
theorem verifyAttestation_total (prim : VerifyPrimitive) (r : AgentReceipt)
    (a : Attestation) :
    (∀ e, prim a.agent (getReceiptSigningMessage r) a.signature = .error e →
      verifyAttestation prim r a = false) ∧
    (∀ b, prim a.agent (getReceiptSigningMessage r) a.signature = .ok b →
      verifyAttestation prim r a = b) := by
  constructor <;> intro x hx <;> simp [verifyAttestation, hx]

/-- C6 witness: under a primitive that throws on the malformed signature,
verification of a concrete attestation returns false. -/
theorem verifyAttestation_total_witness :
    verifyAttestation demoPrimThrow demoReceipt (demoAtt "0xA" "0xBadSig" .buyer) =
      false :=
  (verifyAttestation_total demoPrimThrow demoReceipt
    (demoAtt "0xA" "0xBadSig" .buyer)).1 "malformed signature" rfl

/-- C7: `getReceiptsByAgent` returns exactly the anchored ids whose stored
record was written by the queried agent, in the order of the append-only
`receiptIds` list (no omissions, no extras) — the two-pass count-then-fill
scan equals a filter of that list; in particular, on the ledger with three
anchors by agent 7 interleaved with two by agent 9 it returns exactly the
three matching ids in anchor order. -/
theorem getReceiptsByAgent_spec :
    (∀ (s : ReceiptAnchor.State) (agent : Nat),
      ReceiptAnchor.getReceiptsByAgent s agent =
        s.receiptIds.filter (ReceiptAnchor.matchesAgent s agent)) ∧
    ReceiptAnchor.getReceiptsByAgent demoLedger 7 = [1, 2, 4] := by
  constructor
  · intro s agent
    unfold ReceiptAnchor.getReceiptsByAgent
    rw [foldl_fill_eq (ReceiptAnchor.matchesAgent s agent)]
    · simp
    · rw [List.length_replicate, foldl_count_eq]
  · decide

/-- C8: on an empty attestation list `verifyAllAttestations` reports vacuous
success — valid true with an empty per-signer map; the zero-attestation
failure the spec demands is imposed one layer up: `verifyReceipt` then sets
signaturesValid to false and records the "No attestations present" error. -/
theorem verifyAllAttestations_empty (prim : VerifyPrimitive)
    (txv : TxVerification) (ae : Bool) (r : AgentReceipt) (coc : Bool)
    (hempty : r.attestations = []) :
    verifyAllAttestations prim r = { valid := true, results := [] } ∧
    (verifyReceipt ⟨txv, prim, ae⟩
        { receipt := r, checkOnChain := coc }).checks.signaturesValid = false ∧
    "No attestations present" ∈
      (verifyReceipt ⟨txv, prim, ae⟩ { receipt := r, checkOnChain := coc }).errors := by
  refine ⟨?_, ?_, ?_⟩
  · simp [verifyAllAttestations, hempty]
  · simp [verifyReceipt, hempty]
  · simp [verifyReceipt, hempty]

/-- C8 witness: the concrete unattested receipt — vacuous aggregate success
below, forced failure plus error message inside `verifyReceipt`. -/
theorem verifyAllAttestations_empty_witness :
    verifyAllAttestations demoPrimOk demoReceipt = { valid := true, results := [] } ∧
    (verifyReceipt ⟨{ txExists := true, matches_ := true, errors := [] }, demoPrimOk, true⟩
        { receipt := demoReceipt, checkOnChain := true }).checks.signaturesValid = false ∧
    "No attestations present" ∈
      (verifyReceipt ⟨{ txExists := true, matches_ := true, errors := [] }, demoPrimOk, true⟩
        { receipt := demoReceipt, checkOnChain := true }).errors :=
  verifyAllAttestations_empty demoPrimOk
    { txExists := true, matches_ := true, errors := [] } true demoReceipt true rfl

/-- C9: the content-store availability check can never fail: whenever the
receipt carries an ipfsCid (a truthy, i.e. non-empty, locator — the condition
the code tests), `verifyReceipt` sets ipfsAvailable to true without
consulting any content store and collects the 10 availability points;
ipfsAvailable is never false, for any receipt. -/
theorem verifyReceipt_ipfs_never_fails (env : VerifierEnv)
    (input : VerifyReceiptInput) :
    (isTruthy input.receipt.ipfsCid = true →
      (verifyReceipt env input).checks.ipfsAvailable = some true ∧
      10 ≤ (verifyReceipt env input).confidence) ∧
    (verifyReceipt env input).checks.ipfsAvailable ≠ some false := by
  have hipfs : (verifyReceipt env input).checks.ipfsAvailable =
      (if isTruthy input.receipt.ipfsCid then some true else none) := rfl
  have hc : (verifyReceipt env input).confidence =
      confidenceOf (verifyReceipt env input).checks := rfl
  constructor
  · intro ht
    have h1 : (verifyReceipt env input).checks.ipfsAvailable = some true := by
      rw [hipfs, if_pos ht]
    exact ⟨h1, by rw [hc]; exact confidenceOf_ipfs_ten _ h1⟩
  · rw [hipfs]
    split_ifs <;> simp

/-- C9 witness: a concrete receipt with a locator gets ipfsAvailable = true
and at least the 10 availability points. -/
theorem verifyReceipt_ipfs_never_fails_witness :
    (verifyReceipt demoEnvOk
        { receipt := { demoSignedReceipt with ipfsCid := some "bafyreig01" } }).checks.ipfsAvailable =
      some true ∧
    10 ≤ (verifyReceipt demoEnvOk
        { receipt := { demoSignedReceipt with ipfsCid := some "bafyreig01" } }).confidence :=
  (verifyReceipt_ipfs_never_fails demoEnvOk
    { receipt := { demoSignedReceipt with ipfsCid := some "bafyreig01" } }).1 (by decide)

/-- C10: `createReceipt` lets the caller override the on-chain parties
field-by-field: a supplied (truthy) buyerAgent becomes `transaction.from`
and a supplied sellerAgent becomes `transaction.to`; only when such an input
is absent (or empty, which the code's truthiness guard treats as absent) does
the corresponding field keep the sender/recipient fetched from the chain-data
collaborator. -/
theorem createReceipt_party_override (env : GeneratorEnv)
    (input : CreateReceiptInput) :
    (∀ b, input.buyerAgent = some b → b ≠ "" →
      (createReceipt env input).transaction.from_ = b) ∧
    (isTruthy input.buyerAgent = false →
      (createReceipt env input).transaction.from_ = env.transactionProof.from_) ∧
    (∀ c, input.sellerAgent = some c → c ≠ "" →
      (createReceipt env input).transaction.to_ = c) ∧
    (isTruthy input.sellerAgent = false →
      (createReceipt env input).transaction.to_ = env.transactionProof.to_) := by
  refine ⟨?_, ?_, ?_, ?_⟩
  · intro b hb hbne
    have ht : isTruthy (some b) = true := by simp [isTruthy, hbne]
    by_cases hs : isTruthy input.sellerAgent = true <;>
      simp [createReceipt, hb, ht, hs]
  · intro hf
    by_cases hs : isTruthy input.sellerAgent = true <;>
      simp [createReceipt, hf, hs]
  · intro c hcs hcne
    have ht : isTruthy (some c) = true := by simp [isTruthy, hcne]
    by_cases hb : isTruthy input.buyerAgent = true <;>
      simp [createReceipt, hcs, ht, hb]
  · intro hf
    by_cases hb : isTruthy input.buyerAgent = true <;>
      simp [createReceipt, hf, hb]

/-- C10 witness: a supplied buyer override lands in `from` while the absent
seller input leaves `to` as fetched from the chain. -/
theorem createReceipt_party_override_witness :
    (createReceipt demoGenEnv demoCreateInput).transaction.from_ =
      "0xBuyerOverride" ∧
    (createReceipt demoGenEnv demoCreateInput).transaction.to_ = demoProof.to_ :=
  ⟨(createReceipt_party_override _ _).1 "0xBuyerOverride" rfl (by decide),
   (createReceipt_party_override _ _).2.2.2 rfl⟩
